import Mathlib

/-!
Verification of the `@mattduffy/blogs` repository.

This file gives a shallow embedding of the Blog / Post / gallery logic of the
repository (the `Blog` class of `src/Blog.js`, the `Post` class of
`src/Post.js` / `src/index.js`, the gallery-style `Blog` class of
`src/index.js`, and the `slugify` utility of `src/utils.js`), and proves or
refutes the frozen claims about it.

Conventions used throughout:
- MongoDB `ObjectId` values are modelled as `Nat`.
- JavaScript `Date` timestamps are modelled as `Nat`.
- A JavaScript value that may be `undefined`/`null` is modelled as `Option`.
- Strings are restricted to ASCII; the character classifiers below are the
  restrictions of the Unicode classes used by the source regexes to ASCII
  code points.
-/

namespace Blogs

/-! ## slugify (src/utils.js lines 40-46, src/Blog.js lines 26-31)

The source is

    function slugify(t) {
      if (!t) return null
      return t.toLowerCase()
        .replace(/[^\p\x7bLetter\x7d\p\x7bNumber\x7d\p\x7bSeparator\x7d]/gv, ' ')
        .replace(/\s+/g, '-')
        .slice(0, MAX_SLUG_LENGTH)
    }

with `MAX_SLUG_LENGTH = process.env.MAX_SLUG_LENGTH || 80`.
-/

/-- Default value of the MAX_SLUG_LENGTH constant (`process.env.MAX_SLUG_LENGTH || 80`). -/
def MAX_SLUG_LENGTH : Nat := 80

/-- Restriction of the JavaScript regex class `\s` to ASCII code points:
space, tab, line feed, vertical tab, form feed, carriage return. -/
def jsIsSpace (c : Char) : Bool :=
  c == ' ' || c == '\t' || c == '\n' || c == '\x0b' || c == '\x0c' || c == '\r'

/-- Restriction of the Unicode character classes Letter, Number, Separator
(the classes named in the source regex) to ASCII code points:
the letters are `A`-`Z` and `a`-`z`, the numbers are `0`-`9`, and the only
ASCII separator (class Zs) is the space character. -/
def isLNZ (c : Char) : Bool :=
  c.isAlpha || c.isDigit || c == ' '

/-- Step `t.toLowerCase()` of the source, on ASCII characters. -/
def jsLower (cs : List Char) : List Char := cs.map Char.toLower

/-- Step `.replace(/[^letter number separator]/gv, ' ')` of the source:
every character outside the Letter/Number/Separator classes is replaced
by a space. -/
def replaceNonLNZ (cs : List Char) : List Char :=
  cs.map (fun c => if isLNZ c then c else ' ')

/-- Step `.replace(/\s+/g, '-')` of the source, as the regex engine executes
it: scan left to right remembering whether the scanner is inside a whitespace
run; the first character of each run is replaced by a single dash and the
rest of the run is dropped. -/
def collapseScan : Bool → List Char → List Char
  | _, [] => []
  | inRun, c :: cs =>
    if jsIsSpace c then
      if inRun then collapseScan true cs else '-' :: collapseScan true cs
    else c :: collapseScan false cs

/-- The `slugify` function of `src/utils.js` (identical copy in
`src/Blog.js`).  The argument is an `Option String` because the JavaScript
guard `if (!t) return null` accepts a missing argument as well as the empty
string. -/
def slugify (t : Option String) : Option String :=
  match t with
  | none => none
  | some s =>
    if s = "" then none
    else some (String.mk ((collapseScan false (replaceNonLNZ (jsLower s.toList))).take MAX_SLUG_LENGTH))

/-- The transform claimed by the spec for C6, word for word: lowercase,
STRIP (delete) the characters outside the Letter/Number/Separator classes,
collapse every run of whitespace into a single dash, truncate. -/
def claimSlugify (t : Option String) : Option String :=
  match t with
  | none => none
  | some s =>
    if s = "" then none
    else some (String.mk ((collapseScan false ((jsLower s.toList).filter isLNZ)).take MAX_SLUG_LENGTH))

/-- Run-based description of the whitespace-collapse step, used as the
independent spec-side formulation for the amended claim: the leftmost
maximal run of whitespace becomes one dash and processing continues after
the run. -/
def collapseRuns : List Char → List Char
  | [] => []
  | c :: cs =>
    if jsIsSpace c then '-' :: collapseRuns (cs.dropWhile jsIsSpace)
    else c :: collapseRuns cs
termination_by l => l.length
decreasing_by
  · simp only [List.length_cons]
    exact Nat.lt_succ_of_le (List.Sublist.length_le
      (show (List.dropWhile jsIsSpace cs).Sublist cs from List.dropWhile_sublist _))
  · simp

/-- Amended C6 transform: lowercase, replace every character outside the
Letter/Number/Separator classes WITH A SPACE, collapse every maximal run of
whitespace (original or introduced) into a single dash, truncate to
MAX_SLUG_LENGTH; null and the empty string give null. -/
def amendedSlugify (t : Option String) : Option String :=
  match t with
  | none => none
  | some s =>
    if s = "" then none
    else some (String.mk ((collapseRuns (replaceNonLNZ (jsLower s.toList))).take MAX_SLUG_LENGTH))

/-! ## The JavaScript findIndex helper

`Array.prototype.findIndex` returns the index of the first element satisfying
the predicate, and -1 if there is none; the -1 case is modelled as `none`. -/

/-- JavaScript `Array.prototype.findIndex`: index of the first element
satisfying `p`, `none` when no element does. -/
def findIndex {α : Type} (p : α → Bool) : List α → Option Nat
  | [] => none
  | x :: xs => if p x then some 0 else (findIndex p xs).map (· + 1)

/-! ## PostSummary and the Blog Consistency Engine
(src/Blog.js, second revision: save lines 804-832, createPost lines 927-964,
updatePost lines 879-917, updatePostArray lines 973-1002) -/

/-- The denormalized projection of a Post embedded in the Blog record
(the update object built in createPost/updatePost). -/
structure PostSummary where
  id : Nat
  title : String
  slug : Option String
  createdOn : Option Nat
  editedOn : Option Nat
  public : Bool
deriving DecidableEq, Repr

/-- The in-place field overwrite performed by updatePostArray when the id is
already present: title, slug, createdOn, editedOn, public are overwritten;
the id of the existing entry stays. -/
def mergeSummary (p u : PostSummary) : PostSummary :=
  { p with
    title := u.title
    slug := u.slug
    createdOn := u.createdOn
    editedOn := u.editedOn
    public := u.public }

/-- The in-memory part of the private method updatePostArray of src/Blog.js:

    const found = this.#posts.findIndex((p) => u.id.equals(p.id))
    if (found < 0) { this.#posts.push(u) }
    else { overwrite title/slug/createdOn/editedOn/public at index found }
-/
def updatePostArray (posts : List PostSummary) (u : PostSummary) : List PostSummary :=
  match findIndex (fun p => u.id == p.id) posts with
  | none => posts ++ [u]
  | some i => posts.set i (mergeSummary (posts.getD i u) u)

/-- The persisted Blog record fields relevant to the posts invariant.
A record freshly upserted by Blog.save has no posts field at all; an absent
posts array is modelled as the empty list. -/
structure BlogRecord where
  posts : List PostSummary
  postCount : Nat
deriving DecidableEq, Repr

/-- The state the Blog Consistency Engine acts on: the in-memory private
posts array of the Blog instance together with the persisted Blog record. -/
structure EngineState where
  memPosts : List PostSummary
  record : BlogRecord
deriving DecidableEq, Repr

/-- The whole of updatePostArray: merge into the in-memory array and then
persist with updateOne, whose set document writes both the posts array and
postCount = posts.length. -/
def updatePostArrayDb (s : EngineState) (u : PostSummary) : EngineState :=
  let mem := updatePostArray s.memPosts u
  { memPosts := mem, record := { posts := mem, postCount := mem.length } }

/-- The effect on the persisted record of Blog.save (src/Blog.js lines
804-832): the update document sets postCount to this.#posts.length but does
not touch the stored posts array. -/
def blogSaveDb (s : EngineState) : EngineState :=
  { s with record := { s.record with postCount := s.memPosts.length } }

/-- One Consistency Engine operation, identified by the summary it merges:
createPost calls updatePostArray only; updatePost calls updatePostArray and
then this.save(). -/
inductive EngineOp where
  | createPost (u : PostSummary)
  | updatePost (u : PostSummary)
deriving DecidableEq, Repr

/-- Apply one engine operation (the database writes it performs). -/
def applyOp (s : EngineState) : EngineOp → EngineState
  | .createPost u => updatePostArrayDb s u
  | .updatePost u => blogSaveDb (updatePostArrayDb s u)

/-- State of a Blog right after its creating save: the in-memory posts array
is empty (constructor), and the freshly upserted record carries
postCount = 0 and no posts field. -/
def initEngine : EngineState :=
  { memPosts := [], record := { posts := [], postCount := 0 } }

/-- Apply a sequence of engine operations in order. -/
def applyOps (s : EngineState) (ops : List EngineOp) : EngineState :=
  ops.foldl applyOp s

/-! ## The Post collection and Blog.updatePost
(src/Post.js: constructor lines 90-159, init lines 184-227, save lines
283-338; src/Blog.js second revision: updatePost lines 879-917) -/

/-- A Post document as stored in the posts collection (the fields the update
pipeline reads and writes). -/
structure PostRecord where
  id : Nat
  blogId : Nat
  title : String
  slug : Option String
  createdOn : Option Nat
  editedOn : Option Nat
  public : Bool
deriving DecidableEq, Repr

/-- The fields of the update form handed to Blog.updatePost; a missing field
is `none`. -/
structure UpdateInput where
  id : Nat
  title : Option String
  slug : Option String
  public : Option Bool
deriving DecidableEq, Repr

/-- MongoDB findOne on the posts collection with filter on _id only
(Post.init line 190: the query has no blogId clause). -/
def findPost (db : List PostRecord) (i : Nat) : Option PostRecord :=
  db.find? (fun r => r.id == i)

/-- The in-memory Post instance produced by new Post(mongo, o).init() inside
Blog.updatePost: the constructor takes the update fields (blogId is set to
the calling Blog's id), and init restores title, createdOn, editedOn and slug
from the found document when the form did not provide them.  public is NOT
restored by init: a form without a public field leaves the constructor
default false. -/
def postInitMerge (found : PostRecord) (inp : UpdateInput) (blogId : Nat) : PostRecord :=
  { id := inp.id
    blogId := blogId
    title := inp.title.getD found.title
    slug := match inp.slug with
      | some s => some s
      | none => found.slug
    createdOn := found.createdOn
    editedOn := found.editedOn
    public := inp.public.getD false }

/-- Post.save for an existing post (newPost = false): editedOn is set to the
current time and updateOne runs with the conjunction filter
\x7b _id AND blogId \x7d and no upsert, so a document is rewritten only when
both its _id and its blogId match the instance.  Returns the updated
collection together with the in-memory instance that save returns. -/
def postSave (db : List PostRecord) (p : PostRecord) (now : Nat) :
    List PostRecord × PostRecord :=
  let p' := { p with editedOn := some now }
  (db.map (fun r => if r.id == p'.id && r.blogId == p'.blogId then p' else r), p')

/-- Projection of a Post instance into the PostSummary merged by
Blog.updatePost (the update object of lines 894-901). -/
def summaryOf (p : PostRecord) : PostSummary :=
  { id := p.id
    title := p.title
    slug := p.slug
    createdOn := p.createdOn
    editedOn := p.editedOn
    public := p.public }

/-- Blog.updatePost of src/Blog.js (second revision): build the Post
instance, init it (findOne by _id; a missing document makes init throw and
updatePost rethrows), save it (filter on _id and blogId), then merge the
summary of the in-memory instance into the Blog via updatePostArray and save
the Blog. -/
def updatePost (eng : EngineState) (blogId : Nat) (db : List PostRecord)
    (inp : UpdateInput) (now : Nat) :
    Except String (EngineState × List PostRecord) :=
  match findPost db inp.id with
  | none => .error "Failed to update post."
  | some found =>
    let inst := postInitMerge found inp blogId
    let (db', inst') := postSave db inst now
    let eng' := blogSaveDb (updatePostArrayDb eng (summaryOf inst'))
    .ok (eng', db')

/-! ## The Recency Index adapter
(src/index.js: removeFromRedisStream lines 224-241, addToRedisStream lines
249-297, the visibility block of save lines 442-454)

The redis stream blogs:recent:10 is modelled as a list of entries carrying
the opaque stream token returned by xadd; tokens are handed out from a
strictly increasing counter, so a token never repeats. -/

/-- One entry of the blogs:recent:10 stream: the token redis returned for it
and the id of the blog it describes. -/
structure StreamEntry where
  token : Nat
  blogRef : Nat
deriving DecidableEq, Repr

/-- The redis stream: the next token to hand out and the entries in
insertion order. -/
structure RStream where
  nextTok : Nat
  entries : List StreamEntry
deriving DecidableEq, Repr

/-- redis xdel: remove the entries carrying the given token. -/
def xdel (s : RStream) (t : Nat) : RStream :=
  { s with entries := s.entries.filter (fun e => e.token != t) }

/-- redis xadd: append a new entry for the blog and return its fresh token. -/
def xadd (s : RStream) (blogRef : Nat) : RStream × Nat :=
  ({ nextTok := s.nextTok + 1
     entries := s.entries ++ [{ token := s.nextTok, blogRef := blogRef }] },
   s.nextTok)

/-- The gallery-style Blog instance fields the Recency Index adapter reads.
albumPublic models the expression this._albumPublic tested by save: the
constructor assigns this._blogPublic (line 134) and nothing in the class ever
assigns this._albumPublic, so on every instance built by the constructor the
field is undefined, i.e. `none`. -/
structure RBlog where
  hasRedis : Bool
  blogId : Option Nat
  blogPublic : Bool
  albumPublic : Option Bool
  streamId : Option Nat
deriving DecidableEq, Repr

/-- The Blog instance produced by the constructor of src/index.js for a
config carrying a redis connection, a blog id and a public flag: streamId
defaults to null and _albumPublic is never assigned. -/
def mkBlogFromConfig (blogId : Option Nat) (pub : Bool) : RBlog :=
  { hasRedis := true
    blogId := blogId
    blogPublic := pub
    albumPublic := none
    streamId := none }

/-- Blog.removeFromRedisStream (src/index.js lines 224-241): if a streamId
is held, xdel that exact token and clear the field, then return true; with
no streamId held nothing happens and true is returned. -/
def removeFromRedisStream (b : RBlog) (s : RStream) : RBlog × RStream × Bool :=
  match b.streamId with
  | some t => ({ b with streamId := none }, xdel s t, true)
  | none => (b, s, true)

/-- Blog.addToRedisStream (src/index.js lines 249-297): fail fast without a
redis connection, without a blog id, or when the blog is not public; then
xdel any already-held token, xadd the new entry and store the returned
token. -/
def addToRedisStream (b : RBlog) (s : RStream) : RBlog × RStream × Bool :=
  if !b.hasRedis then (b, s, false)
  else
    match b.blogId with
    | none => (b, s, false)
    | some i =>
      if !b.blogPublic then (b, s, false)
      else
        let s1 := match b.streamId with
          | some t => xdel s t
          | none => s
        let (s2, tok) := xadd s1 i
        ({ b with streamId := some tok }, s2, true)

/-- Truthiness of a possibly-undefined JavaScript boolean:
undefined is falsy. -/
def jsTruthy : Option Bool → Bool
  | none => false
  | some b => b

/-- The visibility synchronization block of Blog.save (src/index.js lines
442-454):

    if (this._albumPublic) \x7b await this.addToRedisStream() \x7d
    else \x7b await this.removeFromRedisStream() \x7d

Note the field tested is _albumPublic, not the _blogPublic field the
constructor assigns. -/
def saveVisibilitySync (b : RBlog) (s : RStream) : RBlog × RStream :=
  if jsTruthy b.albumPublic then
    let (b', s', _) := addToRedisStream b s
    (b', s')
  else
    let (b', s', _) := removeFromRedisStream b s
    (b', s')

/-- Number of live stream entries describing the given blog id. -/
def entriesFor (s : RStream) (i : Nat) : Nat :=
  (s.entries.filter (fun e => e.blogRef == i)).length

/-- The stream entries carried under the token the blog currently holds. -/
def tracked (b : RBlog) (s : RStream) : List StreamEntry :=
  s.entries.filter (fun e => some e.token == b.streamId)

/-! ## Blog.deleteAlbum (src/index.js lines 376-412)

The three external calls the method makes are modelled as an oracle fixed in
advance: the outcome of removeFromRedisStream (a returned boolean, or a
thrown error), whether fs.rm succeeds (it resolves to undefined) or throws,
and the outcome of deleteOne (a deletedCount, or a thrown error). -/

/-- Decidable equality of Except values, needed to evaluate statements about
the deleteAlbum oracle. -/
instance exceptDecEq {ε α : Type} [DecidableEq ε] [DecidableEq α] :
    DecidableEq (Except ε α) := fun a b =>
  match a, b with
  | .ok x, .ok y =>
    if h : x = y then .isTrue (by rw [h]) else .isFalse (by intro hc; cases hc; exact h rfl)
  | .error x, .error y =>
    if h : x = y then .isTrue (by rw [h]) else .isFalse (by intro hc; cases hc; exact h rfl)
  | .ok _, .error _ => .isFalse (by intro hc; cases hc)
  | .error _, .ok _ => .isFalse (by intro hc; cases hc)

/-- Outcomes of the external calls made by deleteAlbum. -/
structure DeleteWorld where
  removeResult : Except Unit Bool
  rmOk : Bool
  dbResult : Except Unit Nat
deriving DecidableEq, Repr

/-- Blog.deleteAlbum.  First component of the result: the returned boolean
(the source returns deleted === undefined, where deleted is undefined only
when no step recorded a failure).  Second component: whether the database
deleteOne was attempted.

Tracing the source: the redis step sets deleted = false on a false return or
a throw; then deleted = await fs.rm(...) overwrites it with undefined when rm
succeeds, while a throw from rm returns false at once, skipping the database
step; finally deleteOne sets deleted = false unless deletedCount === 1. -/
def deleteAlbum (w : DeleteWorld) : Bool × Bool :=
  let deleted1 : Option Bool :=
    match w.removeResult with
    | .ok true => none
    | .ok false => some false
    | .error _ => some false
  if w.rmOk then
    -- deleted = await fs.rm(...): fs.rm resolves to undefined
    let deleted2 : Option Bool := none
    let deleted3 : Option Bool :=
      match w.dbResult with
      | .ok n => if n != 1 then some false else deleted2
      | .error _ => some false
    (deleted3 == none, true)
  else
    -- the catch around fs.rm returns false immediately
    let _ := deleted1
    (false, false)

/-! ## Blog.generateSizes orientation and geometry selection
(src/index.js lines 949-1016)

The constants LANDSCAPE_BIG/MED/SML, PORTRAIT_BIG/MED/SML and THUMBNAIL are
referenced by src/index.js but defined nowhere under src. -/

/-- Width and height reported by the resize tool for the decoded image. -/
structure Geometry where
  width : Nat
  height : Nat
deriving DecidableEq, Repr

/-- Orientation classification of the source image. -/
inductive Orientation where
  | landscape
  | portrait
deriving DecidableEq, Repr

/-- Modelled from the spec: the landscape big geometry constant
LANDSCAPE_BIG is referenced by src/index.js but not defined under src; the
spec says landscape and portrait each define distinct big/med/sml pixel
targets. -/
def LANDSCAPE_BIG : String := "1000x750"

/-- Modelled from the spec: the landscape med geometry constant
LANDSCAPE_MED, missing from src. -/
def LANDSCAPE_MED : String := "640x480"

/-- Modelled from the spec: the landscape sml geometry constant
LANDSCAPE_SML, missing from src. -/
def LANDSCAPE_SML : String := "320x240"

/-- Modelled from the spec: the portrait big geometry constant
PORTRAIT_BIG, missing from src. -/
def PORTRAIT_BIG : String := "750x1000"

/-- Modelled from the spec: the portrait med geometry constant
PORTRAIT_MED, missing from src. -/
def PORTRAIT_MED : String := "480x640"

/-- Modelled from the spec: the portrait sml geometry constant
PORTRAIT_SML, missing from src. -/
def PORTRAIT_SML : String := "240x320"

/-- The big/med/sml geometry strings selected for one orientation. -/
structure SizeTable where
  big : String
  med : String
  sml : String
deriving DecidableEq, Repr

/-- The landscape geometry table of generateSizes. -/
def landscapeTable : SizeTable :=
  { big := LANDSCAPE_BIG, med := LANDSCAPE_MED, sml := LANDSCAPE_SML }

/-- The portrait geometry table of generateSizes. -/
def portraitTable : SizeTable :=
  { big := PORTRAIT_BIG, med := PORTRAIT_MED, sml := PORTRAIT_SML }

/-- Result of the orientation/geometry selection step of generateSizes. -/
structure SizeSelection where
  orientation : Orientation
  sizes : SizeTable
  newJpegBig : String
  newJpegMed : String
  newJpegSml : String
deriving DecidableEq, Repr

/-- The classification and selection step of Blog.generateSizes
(src/index.js lines 973-991):

    if (geometry.width() > geometry.height()) \x7b landscape table \x7d
    else \x7b portrait table \x7d

with the derivative files named parts.name + underscore + geometry + .jpg. -/
def generateSizesSelect (stem : String) (g : Geometry) : SizeSelection :=
  if g.width > g.height then
    { orientation := .landscape
      sizes := landscapeTable
      newJpegBig := stem ++ "_" ++ LANDSCAPE_BIG ++ ".jpg"
      newJpegMed := stem ++ "_" ++ LANDSCAPE_MED ++ ".jpg"
      newJpegSml := stem ++ "_" ++ LANDSCAPE_SML ++ ".jpg" }
  else
    { orientation := .portrait
      sizes := portraitTable
      newJpegBig := stem ++ "_" ++ PORTRAIT_BIG ++ ".jpg"
      newJpegMed := stem ++ "_" ++ PORTRAIT_MED ++ ".jpg"
      newJpegSml := stem ++ "_" ++ PORTRAIT_SML ++ ".jpg" }

/-! ## Blog.deleteImage (src/index.js lines 308-367) -/

/-- path.parse(file).name: the file name with the extension (the segment
from the last dot on) removed; a name whose only dot is the leading one
keeps it. -/
def parseName (file : String) : String :=
  let cs := file.toList
  match findIndex (fun c => c == '.') cs.reverse with
  | none => file
  | some rIdx =>
    let dotPos := cs.length - 1 - rIdx
    if dotPos = 0 then file else String.mk (cs.take dotPos)

/-- Semantics of new RegExp(stem + "*").test(file) for a stem free of other
regex metacharacters.  The pattern is the literal body stem-minus-last-char
followed by last-char repeated zero or more times, matched unanchored; since
the starred character may repeat zero times, the test succeeds exactly when
the body occurs at some position of the file name. -/
def reStarTest (stem file : String) : Bool :=
  let cs := stem.toList
  match cs with
  | [] => true
  | _ =>
    let body := cs.dropLast
    (List.range (file.toList.length + 1)).any
      (fun i => body.isPrefixOf (file.toList.drop i))

/-- An element of the gallery's images array (only the name field matters to
deleteImage's lookup). -/
structure GalleryImage where
  name : String
deriving DecidableEq, Repr

/-- The gallery state deleteImage acts on: the embedded images array and the
files on disk in the gallery directory. -/
structure Gallery where
  images : List GalleryImage
  diskFiles : List String
deriving DecidableEq, Repr

/-- Result of deleteImage: the new gallery state, the disk files removed,
and the returned boolean. -/
structure DeleteImageResult where
  gallery : Gallery
  removedFiles : List String
  deleted : Bool
deriving DecidableEq, Repr

/-- Blog.deleteImage (src/index.js lines 308-367): look the name up in the
images array; when absent, return the initial deleted = false having touched
nothing; when present, delete every file of the gallery directory matched by
new RegExp(stem + "*"), splice the one record out of the images array, and
save.  The returned flag is the result of the last fs.rm, so it stays false
when no file matched. -/
def deleteImage (g : Gallery) (imageName : String) : DeleteImageResult :=
  match findIndex (fun i => i.name == imageName) g.images with
  | none => { gallery := g, removedFiles := [], deleted := false }
  | some idx =>
    let stem := parseName imageName
    let matched := g.diskFiles.filter (fun f => reStarTest stem f)
    let disk' := g.diskFiles.filter (fun f => !reStarTest stem f)
    let images' := g.images.eraseIdx idx
    { gallery := { images := images', diskFiles := disk' }
      removedFiles := matched
      deleted := !matched.isEmpty }

/-! ## The Post image setter and previewImg getter
(the Post class of src/index.js, lines 456-473)

A JavaScript array that may contain holes is modelled as a list of options:
a hole reads as undefined, i.e. `none`. -/

/-- The image setter of the Post class:

    set image(i) \x7b
      const len = this.#images.length
      if (this.#images[0] !== undefined) \x7b this.#images.push(i) \x7d
      else if (len === 0) \x7b this.#images[1] = i \x7d
      else \x7b this.#images.push(i) \x7d
    \x7d

Assigning index 1 of an empty array leaves a hole at index 0 and gives the
array length 2. -/
def setImage {α : Type} (images : List (Option α)) (i : α) : List (Option α) :=
  if (images.getD 0 none).isSome then images ++ [some i]
  else if images.length = 0 then [none, some i]
  else images ++ [some i]

/-- The previewImg getter of the Post class: return this.#images[0]. -/
def previewImg {α : Type} (images : List (Option α)) : Option α :=
  images.getD 0 none

/-! ## Helper lemmas -/

/-- The scanning and the run-based formulations of the whitespace collapse
agree: scanner state true corresponds to standing inside a run whose dash
was already emitted, i.e. to having the rest of the run dropped. -/
theorem collapseScan_eq_collapseRuns (cs : List Char) :
    collapseScan false cs = collapseRuns cs ∧
    collapseScan true cs = collapseRuns (cs.dropWhile jsIsSpace) := by
  induction cs with
  | nil => constructor <;> simp [collapseScan, collapseRuns]
  | cons c cs ih =>
    by_cases h : jsIsSpace c <;>
      simp [collapseScan, collapseRuns, h, List.dropWhile_cons, ih.1, ih.2]

/-- findIndex returns none exactly when no element satisfies the
predicate. -/
theorem findIndex_eq_none_iff {α : Type} (p : α → Bool) :
    ∀ l : List α, findIndex p l = none ↔ ∀ x ∈ l, p x = false := by
  intro l
  induction l with
  | nil => simp [findIndex]
  | cons x xs ih =>
    by_cases h : p x <;> simp [findIndex, h, ih]

/-- A successful findIndex is in range and points at an element satisfying
the predicate. -/
theorem findIndex_some {α : Type} (p : α → Bool) :
    ∀ (l : List α) (i : Nat), findIndex p l = some i →
      i < l.length ∧ ∃ x, l[i]? = some x ∧ p x = true := by
  intro l
  induction l with
  | nil => intro i h; simp [findIndex] at h
  | cons x xs ih =>
    intro i h
    by_cases hx : p x
    · simp only [findIndex, hx, if_pos] at h
      cases h
      exact ⟨Nat.succ_pos _, x, by simp, hx⟩
    · simp only [findIndex, hx, if_neg, Option.map_eq_some', Bool.false_eq_true,
        not_false_eq_true] at h
      obtain ⟨j, hj, rfl⟩ := h
      obtain ⟨hlt, y, hy, hp⟩ := ih j hj
      exact ⟨Nat.succ_lt_succ hlt, y, by simpa using hy, hp⟩

/-! ## C6: slugify -/

/-- C6 is refuted at the input "a.b": the source replaces the dot with a
space, which then collapses to a dash, so slugify gives "a-b" while the
claimed strip-then-collapse transform gives "ab". -/
theorem c6_counterexample :
    slugify (some "a.b") = some "a-b" ∧
    claimSlugify (some "a.b") = some "ab" ∧
    slugify (some "a.b") ≠ claimSlugify (some "a.b") := by
  refine ⟨by decide, by decide, by decide⟩

/-- C6 amended: for every input, slugify equals the transform that
lowercases, replaces every character outside the Letter/Number/Separator
classes with a space, collapses every maximal whitespace run into a single
dash, and truncates to the configured maximum length; null and the empty
string yield null. -/
theorem c6_amended (t : Option String) : slugify t = amendedSlugify t := by
  cases t with
  | none => rfl
  | some s =>
    by_cases h : s = ""
    · simp [slugify, amendedSlugify, h]
    · simp only [slugify, amendedSlugify]
      rw [if_neg h, if_neg h, (collapseScan_eq_collapseRuns _).1]

/-! ## C3: updatePostArray merge semantics -/

/-- C3: when the merged summary's id occurs in the Blog's embedded posts
array, updatePostArray overwrites the title/slug/createdOn/editedOn/public
fields of the entry findIndex locates, keeping the array's length and every
other position unchanged; when the id does not occur, the summary is
appended at the end. -/
theorem c3_updatePostArray_merge (posts : List PostSummary) (u : PostSummary) :
    ((∀ p ∈ posts, p.id ≠ u.id) → updatePostArray posts u = posts ++ [u]) ∧
    (∀ i, findIndex (fun p => u.id == p.id) posts = some i →
      (updatePostArray posts u).length = posts.length ∧
      (∀ j, j ≠ i → (updatePostArray posts u)[j]? = posts[j]?) ∧
      ∃ p, posts[i]? = some p ∧
        (updatePostArray posts u)[i]? = some (mergeSummary p u)) := by
  constructor
  · intro h
    have hn : findIndex (fun p => u.id == p.id) posts = none := by
      rw [findIndex_eq_none_iff]
      intro x hx
      simpa using fun heq => (h x hx) heq.symm
    unfold updatePostArray
    rw [hn]
  · intro i hi
    obtain ⟨hlt, x, hx, hp⟩ := findIndex_some _ _ _ hi
    have hgetD : posts.getD i u = x := by
      simp [List.getD, hx]
    have hEq : updatePostArray posts u = posts.set i (mergeSummary x u) := by
      unfold updatePostArray
      rw [hi]
      show posts.set i (mergeSummary (posts.getD i u) u) = _
      rw [hgetD]
    rw [hEq]
    refine ⟨List.length_set posts i _, ?_, x, hx, ?_⟩
    · intro j hj
      exact List.getElem?_set_ne (Ne.symm hj)
    · simp [List.getElem?_set_self, hlt]

/-- Witness for C3 at a concrete input: a summary with a fresh id is
appended. -/
theorem c3_witness :
    updatePostArray
        [{ id := 1, title := "a", slug := none, createdOn := none,
           editedOn := none, public := false }]
        { id := 2, title := "b", slug := some "b", createdOn := some 4,
          editedOn := none, public := true } =
      [{ id := 1, title := "a", slug := none, createdOn := none,
         editedOn := none, public := false },
       { id := 2, title := "b", slug := some "b", createdOn := some 4,
         editedOn := none, public := true }] :=
  (c3_updatePostArray_merge _ _).1 (by decide)

/-! ## C1: the postCount invariant of the Consistency Engine -/

/-- Every single engine operation, createPost as well as updatePost, writes
the persisted record with postCount equal to the length of its posts array:
updatePostArray persists both fields together, and the save that updatePost
appends recomputes postCount from the same in-memory array it just
persisted. -/
theorem applyOp_consistent (s : EngineState) (op : EngineOp) :
    (applyOp s op).record.postCount = (applyOp s op).record.posts.length := by
  cases op <;> rfl

/-- C1: for every sequence of createPost/updatePost operations applied to a
freshly saved Blog, after each Consistency Engine save the persisted Blog
record's postCount equals the length of its embedded posts summary array
(for every sequence ops, the state after ops satisfies the invariant, which
covers every prefix of a longer run). -/
theorem c1_postCount_invariant (ops : List EngineOp) :
    (applyOps initEngine ops).record.postCount =
      (applyOps initEngine ops).record.posts.length := by
  induction ops using List.reverseRecOn with
  | nil => rfl
  | append_singleton ops op _ =>
    rw [applyOps, List.foldl_append]
    exact applyOp_consistent _ op

/-! ## C4: updating a missing or foreign Post -/

/-- C4 is refuted at a concrete input: the posts collection holds post 10
owned by blog 2, and blog 1 updates post 10.  The pipeline returns ok (no
NotFoundError and no thrown error at all), leaves the posts collection
unchanged, and merges the foreign post's summary into blog 1's embedded
array, whose length grows from 0 to 1. -/
theorem c4_counterexample :
    updatePost initEngine 1
        [{ id := 10, blogId := 2, title := "t", slug := none,
           createdOn := some 1, editedOn := none, public := true }]
        { id := 10, title := none, slug := none, public := none } 5 =
      .ok ({ memPosts := [{ id := 10, title := "t", slug := none,
                            createdOn := some 1, editedOn := some 5, public := false }],
             record := { posts := [{ id := 10, title := "t", slug := none,
                                     createdOn := some 1, editedOn := some 5,
                                     public := false }],
                         postCount := 1 } },
           [{ id := 10, blogId := 2, title := "t", slug := none,
              createdOn := some 1, editedOn := none, public := true }]) ∧
    initEngine.memPosts.length = 0 := by
  refine ⟨by decide, rfl⟩

/-- C4 amended: updating a Post whose id is not in the posts collection
fails with a thrown error (the generic init failure, not a NotFoundError
class) and modifies nothing; updating a Post whose stored blogId differs
from the Blog performing the update leaves the posts collection unchanged
(the write filter requires both _id and blogId), but raises no error and
still merges the in-memory post's summary into the Blog's embedded array
and saves the Blog. -/
theorem c4_amended (eng : EngineState) (blogId : Nat) (db : List PostRecord)
    (inp : UpdateInput) (now : Nat) :
    (findPost db inp.id = none →
      updatePost eng blogId db inp now = .error "Failed to update post.") ∧
    (∀ r, findPost db inp.id = some r →
      (∀ x ∈ db, x.id = inp.id → x.blogId ≠ blogId) →
      updatePost eng blogId db inp now =
        .ok (blogSaveDb (updatePostArrayDb eng
              (summaryOf { postInitMerge r inp blogId with editedOn := some now })), db)) := by
  constructor
  · intro h
    unfold updatePost
    rw [h]
  · intro r hr hmis
    unfold updatePost
    rw [hr]
    show Except.ok
        (blogSaveDb (updatePostArrayDb eng (summaryOf (postSave db (postInitMerge r inp blogId) now).2)),
         (postSave db (postInitMerge r inp blogId) now).1) = _
    have hdb : (postSave db (postInitMerge r inp blogId) now).1 = db := by
      unfold postSave
      have hcong : ∀ x ∈ db,
          (if x.id == inp.id && x.blogId == blogId
           then { postInitMerge r inp blogId with editedOn := some now } else x) = x := by
        intro x hx
        have : ¬(x.id = inp.id ∧ x.blogId = blogId) := by
          rintro ⟨h1, h2⟩
          exact hmis x hx h1 h2
        by_cases h1 : x.id = inp.id
        · have h2 : x.blogId ≠ blogId := fun h2 => this ⟨h1, h2⟩
          simp [h1, h2]
        · simp [h1]
      calc db.map _ = db.map id := List.map_congr_left hcong
        _ = db := List.map_id db
    rw [hdb]
    rfl

/-- Witness for C4 at concrete inputs: blog 3 updates post 20, which is
stored with blogId 4; the call succeeds, the posts collection is returned
unchanged, and the summary is merged into the blog state. -/
theorem c4_witness :
    updatePost initEngine 3
        [{ id := 20, blogId := 4, title := "u", slug := some "u",
           createdOn := some 2, editedOn := none, public := true }]
        { id := 20, title := none, slug := none, public := none } 7 =
      .ok (blogSaveDb (updatePostArrayDb initEngine
            (summaryOf { postInitMerge
                { id := 20, blogId := 4, title := "u", slug := some "u",
                  createdOn := some 2, editedOn := none, public := true }
                { id := 20, title := none, slug := none, public := none } 3 with
              editedOn := some 7 })),
           [{ id := 20, blogId := 4, title := "u", slug := some "u",
              createdOn := some 2, editedOn := none, public := true }]) :=
  (c4_amended initEngine 3
      [{ id := 20, blogId := 4, title := "u", slug := some "u",
         createdOn := some 2, editedOn := none, public := true }]
      { id := 20, title := none, slug := none, public := none } 7).2
    { id := 20, blogId := 4, title := "u", slug := some "u",
      createdOn := some 2, editedOn := none, public := true }
    (by decide) (by decide)

/-! ## C5: deleteAlbum ordering and failure reporting -/

/-- C5 is refuted at a concrete oracle: when the recursive directory
removal throws while the index removal succeeded and the database deletion
would remove exactly one record, deleteAlbum returns false immediately and
the database deletion is never attempted (second component false), whereas
the claim requires the database deletion to be attempted and the operation
to succeed. -/
theorem c5_counterexample :
    deleteAlbum { removeResult := .ok true, rmOk := false, dbResult := .ok 1 } =
      (false, false) := by
  decide

/-- C5 amended: the Recency Index removal happens first and its outcome
never influences the result or whether the database deletion is attempted;
a directory-removal failure aborts the operation with false BEFORE the
database deletion is attempted; when the directory removal succeeds, the
database deletion is attempted and the operation reports success exactly
when it removed one record. -/
theorem c5_amended (w : DeleteWorld) :
    (w.rmOk = false → deleteAlbum w = (false, false)) ∧
    (w.rmOk = true →
      (deleteAlbum w).2 = true ∧
      ((deleteAlbum w).1 = true ↔ w.dbResult = .ok 1)) ∧
    (∀ rr, deleteAlbum { w with removeResult := rr } = deleteAlbum w) := by
  obtain ⟨rr, rm, dbr⟩ := w
  refine ⟨?_, ?_, ?_⟩
  · rintro rfl
    cases rr with
    | ok b => cases b <;> rfl
    | error e => rfl
  · rintro rfl
    cases dbr with
    | ok n =>
      constructor
      · rfl
      · by_cases h : n = 1 <;> simp [deleteAlbum, h]
    | error e => constructor <;> simp [deleteAlbum]
  · intro rr'
    cases rm <;> rfl

/-- Witness for C5 at a concrete oracle: index removal fails, directory
removal succeeds, the database deletion removes one record; the operation
is attempted against the database and reports success. -/
theorem c5_witness :
    (deleteAlbum { removeResult := .ok false, rmOk := true, dbResult := .ok 1 }).2 = true ∧
    ((deleteAlbum { removeResult := .ok false, rmOk := true, dbResult := .ok 1 }).1 = true ↔
      (Except.ok 1 : Except Unit Nat) = .ok 1) :=
  (c5_amended { removeResult := .ok false, rmOk := true, dbResult := .ok 1 }).2.1 rfl

/-! ## C2: visibility synchronization on save -/

/-- C2 (evaluation of the buggy code at the failing input): a Blog
constructed with public true, a blog id and a redis connection, holding no
token, is saved; because save tests the never-assigned _albumPublic field
instead of the _blogPublic the constructor sets, the remove branch runs and
afterwards the Recency Index holds zero entries for the blog and no token is
stored, where the claim requires exactly one.  The same evaluation from a
state that does hold a live entry shows the save erases it despite public
being true. -/
theorem c2_bug_eval :
    ((mkBlogFromConfig (some 7) true).blogPublic = true ∧
     (mkBlogFromConfig (some 7) true).albumPublic = none) ∧
    (entriesFor (saveVisibilitySync (mkBlogFromConfig (some 7) true)
        { nextTok := 0, entries := [] }).2 7 = 0 ∧
     (saveVisibilitySync (mkBlogFromConfig (some 7) true)
        { nextTok := 0, entries := [] }).1.streamId = none) ∧
    entriesFor (saveVisibilitySync
        { mkBlogFromConfig (some 7) true with streamId := some 0 }
        { nextTok := 1, entries := [{ token := 0, blogRef := 7 }] }).2 7 = 0 := by
  refine ⟨⟨rfl, rfl⟩, ⟨by decide, by decide⟩, by decide⟩

/-! ## C8: the Recency Index adapter operations -/

/-- C8: removing with a token held deletes exactly the entries carrying
that token and clears the field, returning true; removing with no token
held is a no-op returning true; adding on the successful path first deletes
the entries of any already-held token, appends one new entry and stores the
freshly returned token; and after either operation the blog tracks at most
one live entry. -/
theorem c8_adapter (b : RBlog) (s : RStream) (i : Nat)
    (hid : b.blogId = some i)
    (hfresh : ∀ e ∈ s.entries, e.token < s.nextTok)
    (hpre : (tracked b s).length ≤ 1) :
    (∀ t, b.streamId = some t →
      (removeFromRedisStream b s).1.streamId = none ∧
      (removeFromRedisStream b s).2.2 = true ∧
      (∀ e, e ∈ (removeFromRedisStream b s).2.1.entries ↔
        e ∈ s.entries ∧ e.token ≠ t)) ∧
    (b.streamId = none → removeFromRedisStream b s = (b, s, true)) ∧
    (b.hasRedis = true → b.blogPublic = true →
      (addToRedisStream b s).1.streamId = some s.nextTok ∧
      (addToRedisStream b s).2.2 = true ∧
      (∀ e, e ∈ (addToRedisStream b s).2.1.entries ↔
        ((e ∈ s.entries ∧ some e.token ≠ b.streamId) ∨
          e = { token := s.nextTok, blogRef := i }))) ∧
    (tracked (removeFromRedisStream b s).1 (removeFromRedisStream b s).2.1).length ≤ 1 ∧
    (tracked (addToRedisStream b s).1 (addToRedisStream b s).2.1).length ≤ 1 := by
  refine ⟨?_, ?_, ?_, ?_, ?_⟩
  · intro t ht
    refine ⟨?_, ?_, ?_⟩
    · simp [removeFromRedisStream, ht]
    · simp [removeFromRedisStream, ht]
    · intro e
      simp [removeFromRedisStream, ht, xdel, List.mem_filter, bne_iff_ne]
  · intro ht
    simp [removeFromRedisStream, ht]
  · intro hr hp
    refine ⟨?_, ?_, ?_⟩
    · cases hsid : b.streamId <;>
        simp [addToRedisStream, hr, hp, hid, hsid, xadd, xdel]
    · cases hsid : b.streamId <;>
        simp [addToRedisStream, hr, hp, hid, hsid, xadd, xdel]
    · intro e
      cases hsid : b.streamId with
      | none =>
        simp [addToRedisStream, hr, hp, hid, hsid, xadd, or_comm]
      | some t =>
        simp [addToRedisStream, hr, hp, hid, hsid, xadd, xdel,
          List.mem_filter, bne_iff_ne, or_comm]
  · cases hsid : b.streamId with
    | none =>
      simpa [removeFromRedisStream, hsid] using hpre
    | some t =>
      have hnil : ∀ es : List StreamEntry,
          es.filter (fun e => some e.token == (none : Option Nat)) = [] := by
        intro es
        apply List.filter_eq_nil_iff.2
        intro e _
        simp
      simp [removeFromRedisStream, hsid, tracked, hnil]
  · by_cases hr : b.hasRedis = true
    · by_cases hp : b.blogPublic = true
      · cases hsid : b.streamId with
        | none =>
          simp only [addToRedisStream, hr, hp, hid, hsid, xadd, xdel, tracked,
            List.filter_append, Bool.not_true, Bool.false_eq_true, if_false,
            ite_true, ite_false]
          simp [List.filter_eq_nil_iff]
          exact fun a ha => Nat.ne_of_lt (hfresh a ha)
        | some t =>
          simp only [addToRedisStream, hr, hp, hid, hsid, xadd, xdel, tracked,
            List.filter_append, Bool.not_true, Bool.false_eq_true, if_false,
            ite_true, ite_false]
          simp [List.filter_eq_nil_iff, List.mem_filter]
          exact fun a ha hEq => absurd hEq (Nat.ne_of_lt (hfresh a ha))
      · have hp' : b.blogPublic = false := by
          cases hb : b.blogPublic
          · rfl
          · exact absurd hb hp
        simpa [addToRedisStream, hr, hp', hid] using hpre
    · have hr' : b.hasRedis = false := by
        cases hb : b.hasRedis
        · rfl
        · exact absurd hb hr
      simpa [addToRedisStream, hr'] using hpre

/-- Witness for C8 at a concrete state: a blog holding no token; remove is
a no-op success. -/
theorem c8_witness :
    removeFromRedisStream
        { hasRedis := true, blogId := some 3, blogPublic := true,
          albumPublic := none, streamId := none }
        { nextTok := 0, entries := [] } =
      ({ hasRedis := true, blogId := some 3, blogPublic := true,
         albumPublic := none, streamId := none },
       { nextTok := 0, entries := [] }, true) :=
  (c8_adapter
      { hasRedis := true, blogId := some 3, blogPublic := true,
        albumPublic := none, streamId := none }
      { nextTok := 0, entries := [] } 3 rfl (by simp) (by decide)).2.1 rfl

/-! ## C7: generateSizes orientation and geometry tables -/

/-- C7: generateSizes classifies the image as landscape exactly when the
decoded width is strictly greater than the decoded height and as portrait
otherwise (squares included), selects the landscape geometry table for
landscape and the portrait table for portrait, and the two tables differ in
at least one of the big/med/sml labels.  The geometry constants themselves
are modelled from the spec (they are referenced by the source but defined
outside src). -/
theorem c7_orientation (stem : String) (g : Geometry) :
    ((generateSizesSelect stem g).orientation = .landscape ↔ g.width > g.height) ∧
    ((generateSizesSelect stem g).orientation = .portrait ↔ g.width ≤ g.height) ∧
    (g.width > g.height → (generateSizesSelect stem g).sizes = landscapeTable) ∧
    (g.width ≤ g.height → (generateSizesSelect stem g).sizes = portraitTable) ∧
    (landscapeTable.big ≠ portraitTable.big ∨ landscapeTable.med ≠ portraitTable.med ∨
      landscapeTable.sml ≠ portraitTable.sml) := by
  by_cases h : g.width > g.height
  · refine ⟨?_, ?_, ?_, ?_, ?_⟩
    · simp [generateSizesSelect, h]
    · simp [generateSizesSelect, h, Nat.not_le_of_lt h]
    · intro _
      simp [generateSizesSelect, h]
    · intro hle
      exact absurd hle (Nat.not_le_of_lt h)
    · exact Or.inl (by decide)
  · have hle : g.width ≤ g.height := Nat.le_of_not_lt h
    refine ⟨?_, ?_, ?_, ?_, ?_⟩
    · simp [generateSizesSelect, h]
    · simp [generateSizesSelect, h, hle]
    · intro hgt
      exact absurd hgt h
    · intro _
      simp [generateSizesSelect, h]
    · exact Or.inl (by decide)

/-- Witness for C7 at concrete geometries: a 4x3 image is landscape with
the landscape table, a 3x3 square is portrait with the portrait table. -/
theorem c7_witness :
    (generateSizesSelect "img" { width := 4, height := 3 }).sizes = landscapeTable ∧
    (generateSizesSelect "img" { width := 3, height := 3 }).orientation = .portrait :=
  ⟨(c7_orientation "img" { width := 4, height := 3 }).2.2.1 (by decide),
   (c7_orientation "img" { width := 3, height := 3 }).2.1.2 (by decide)⟩

/-! ## C9: deleteImage file matching -/

/-- C9 (evaluation of the buggy code at the failing input): the gallery
holds images img_001.jpg and img_002.jpg with the disk files img_001.jpg,
img_001_big.jpg and img_002.jpg.  deleteImage("img_001.jpg") deletes all
three files — including img_002.jpg, whose name does not start with the
stem img_001 — because the glob stem* is handed to the RegExp constructor,
where the star makes the stem's final character optional and the match is
unanchored.  Exactly one image record is removed, but the claim's
description of the deleted file set (the stem-prefixed files) is violated. -/
theorem c9_bug_eval :
    (deleteImage
        { images := [{ name := "img_001.jpg" }, { name := "img_002.jpg" }],
          diskFiles := ["img_001.jpg", "img_001_big.jpg", "img_002.jpg"] }
        "img_001.jpg").removedFiles =
      ["img_001.jpg", "img_001_big.jpg", "img_002.jpg"] ∧
    "img_001".toList.isPrefixOf "img_002.jpg".toList = false ∧
    (deleteImage
        { images := [{ name := "img_001.jpg" }, { name := "img_002.jpg" }],
          diskFiles := ["img_001.jpg", "img_001_big.jpg", "img_002.jpg"] }
        "img_001.jpg").gallery.images = [{ name := "img_002.jpg" }] ∧
    deleteImage
        { images := [{ name := "img_001.jpg" }, { name := "img_002.jpg" }],
          diskFiles := ["img_001.jpg", "img_001_big.jpg", "img_002.jpg"] }
        "nope.jpg" =
      { gallery := { images := [{ name := "img_001.jpg" }, { name := "img_002.jpg" }],
                     diskFiles := ["img_001.jpg", "img_001_big.jpg", "img_002.jpg"] },
        removedFiles := [],
        deleted := false } := by
  refine ⟨by decide, by decide, by decide, by decide⟩

/-! ## C10: the Post image setter index-1 quirk -/

/-- C10: assigning an image through the Post image setter while the images
array is empty stores it at index 1, leaving index 0 as a hole, so
previewImg still returns undefined; when the array's first element is
defined, the setter appends at the end. -/
theorem c10_image_setter {α : Type} (i j : α) (imgs : List (Option α)) (x : α)
    (h : imgs.getD 0 none = some x) :
    setImage ([] : List (Option α)) i = [none, some i] ∧
    previewImg (setImage ([] : List (Option α)) i) = none ∧
    setImage imgs j = imgs ++ [some j] := by
  refine ⟨rfl, rfl, ?_⟩
  unfold setImage
  rw [h]
  simp

/-- Witness for C10 at concrete values: the first image added to an empty
Post lands at index 1 with previewImg undefined, and an image added to an
array whose head is defined is appended. -/
theorem c10_witness :
    setImage ([] : List (Option Nat)) 3 = [none, some 3] ∧
    previewImg (setImage ([] : List (Option Nat)) 3) = none ∧
    setImage [some 5] 4 = [some 5, some 4] :=
  c10_image_setter 3 4 [some 5] 5 rfl

end Blogs
